import Mathlib

/-!
Verification development for the TOTP MFA lifecycle of the adjutant-mfa
plugins.  The definitions below are a shallow embedding of the Python
sources:

* `mfa_actions/utils.py` (`generate_totp_passcode`) and
  `keystone_mfa/utils.py` (`_generate_totp_passcodes`): the TOTP codec,
  built on Python's `base64.b32decode` and the `cryptography` library's
  HMAC-SHA1-based TOTP with 6 digits and a 30 second period.
* `mfa_actions/models.py` (`EditMFAAction`): the MFA lifecycle manager
  (`_pre_approve`, `_submit`, `get_credential_secret`,
  `validate_passcode`, `_validate_totp_enabled`) over an abstract
  credential store.

Machine integers are modelled as `Nat` with explicit masking where the
source relies on 32-bit overflow; Python exceptions are modelled with
`Option` (`none` = an exception was raised and not caught).
-/

set_option maxRecDepth 100000
set_option maxHeartbeats 4000000

/-- 2^32 - 1, the mask for 32-bit arithmetic in SHA-1. -/
def mask32 : Nat := 4294967295

/-- Left rotation of a 32-bit word by `k` bits. -/
def rotl (k x : Nat) : Nat := ((x <<< k) ||| (x >>> (32 - k))) &&& mask32

/-- Big-endian encoding of `v` into `n` bytes (Python `int.to_bytes(n, 'big')`,
truncating to the low `8*n` bits like `struct.pack` on in-range values). -/
def toBytesBE : Nat → Nat → List Nat
  | 0, _ => []
  | n + 1, v => toBytesBE n (v / 256) ++ [v % 256]

/-- Big-endian decoding of a byte list (Python `struct.unpack('>I', ...)`). -/
def fromBytesBE (l : List Nat) : Nat := l.foldl (fun a b => a * 256 + b) 0

/-- Fuel-driven chunking helper: splits `l` into consecutive pieces of `n`
elements (the last piece may be shorter). -/
def chunksGo {α : Type} (n : Nat) : Nat → List α → List (List α)
  | 0, _ => []
  | _, [] => []
  | fuel + 1, l => l.take n :: chunksGo n fuel (l.drop n)

/-- Split a list into consecutive chunks of `n` elements. -/
def chunksOf {α : Type} (n : Nat) (l : List α) : List (List α) :=
  chunksGo n l.length l

/-- SHA-1 message padding: append `0x80`, zeros, and the 64-bit big-endian
bit length, reaching a multiple of 64 bytes. -/
def sha1pad (msg : List Nat) : List Nat :=
  msg ++ 128 :: List.replicate ((119 - msg.length % 64) % 64) 0
      ++ toBytesBE 8 (8 * msg.length)

/-- The five 32-bit words of SHA-1 working state. -/
structure Sha1State where
  a : Nat
  b : Nat
  c : Nat
  d : Nat
  e : Nat
deriving Repr, DecidableEq

/-- SHA-1 initial state (h0..h4). -/
def sha1init : Sha1State :=
  ⟨1732584193, 4023233417, 2562383102, 271733878, 3285377520⟩

/-- A window of sixteen consecutive message-schedule words,
`w[i] .. w[i+15]`, kept explicitly for the sliding-window formulation of
the SHA-1 schedule. -/
structure W16 where
  w0 : Nat
  w1 : Nat
  w2 : Nat
  w3 : Nat
  w4 : Nat
  w5 : Nat
  w6 : Nat
  w7 : Nat
  w8 : Nat
  w9 : Nat
  w10 : Nat
  w11 : Nat
  w12 : Nat
  w13 : Nat
  w14 : Nat
  w15 : Nat

/-- The SHA-1 round function for round group `g` (rounds `20*g ..
20*g+19`); `b ^^^ mask32` is 32-bit complement. -/
def sha1f (g b c d : Nat) : Nat :=
  match g with
  | 0 => (b &&& c) ||| ((b ^^^ mask32) &&& d)
  | 1 => b ^^^ c ^^^ d
  | 2 => (b &&& c) ||| (b &&& d) ||| (c &&& d)
  | _ => b ^^^ c ^^^ d

/-- `n` SHA-1 rounds of group `g` with round constant `k`.  At each round
the head `w0` of the window is the current schedule word `w[i]`, and the
freshly extended word `w[i+16] = rotl1 (w[i+13] ^^^ w[i+8] ^^^ w[i+2] ^^^
w[i])` is shifted in at the back, so the window always holds
`w[i] .. w[i+15]`. -/
def sha1rounds (g k : Nat) : Nat → Sha1State → W16 → Sha1State × W16
  | 0, st, w => (st, w)
  | n + 1, st, w =>
      let temp := (rotl 5 st.a + sha1f g st.b st.c st.d + st.e + k + w.w0) &&& mask32
      sha1rounds g k n ⟨temp, st.a, rotl 30 st.b, st.c, st.d⟩
        ⟨w.w1, w.w2, w.w3, w.w4, w.w5, w.w6, w.w7, w.w8, w.w9, w.w10, w.w11,
         w.w12, w.w13, w.w14, w.w15, rotl 1 (w.w13 ^^^ w.w8 ^^^ w.w2 ^^^ w.w0)⟩

/-- Process one 64-byte block: load the sixteen 32-bit big-endian words,
run the four groups of twenty rounds, add the result into the running
hash state modulo 2^32. -/
def sha1block (st : Sha1State) (block : List Nat) : Sha1State :=
  let ws := (chunksOf 4 block).map fromBytesBE
  let w : W16 := ⟨ws.getD 0 0, ws.getD 1 0, ws.getD 2 0, ws.getD 3 0,
    ws.getD 4 0, ws.getD 5 0, ws.getD 6 0, ws.getD 7 0, ws.getD 8 0,
    ws.getD 9 0, ws.getD 10 0, ws.getD 11 0, ws.getD 12 0, ws.getD 13 0,
    ws.getD 14 0, ws.getD 15 0⟩
  let r1 := sha1rounds 0 1518500249 20 st w
  let r2 := sha1rounds 1 1859775393 20 r1.1 r1.2
  let r3 := sha1rounds 2 2400959708 20 r2.1 r2.2
  let r4 := sha1rounds 3 3395469782 20 r3.1 r3.2
  let r := r4.1
  ⟨(st.a + r.a) &&& mask32, (st.b + r.b) &&& mask32, (st.c + r.c) &&& mask32,
   (st.d + r.d) &&& mask32, (st.e + r.e) &&& mask32⟩

/-- SHA-1 of a byte list, as a 20-byte digest. -/
def sha1 (msg : List Nat) : List Nat :=
  let st := (chunksOf 64 (sha1pad msg)).foldl sha1block sha1init
  toBytesBE 4 st.a ++ toBytesBE 4 st.b ++ toBytesBE 4 st.c ++
    toBytesBE 4 st.d ++ toBytesBE 4 st.e

/-- HMAC-SHA1 with a key of at most 64 bytes padded with zeros
(the TOTP keys here are 20 bytes; longer keys are first hashed). -/
def hmacSha1 (key msg : List Nat) : List Nat :=
  let k := if 64 < key.length then sha1 key else key
  let k0 := k ++ List.replicate (64 - k.length) 0
  sha1 ((k0.map (· ^^^ 92)) ++ sha1 ((k0.map (· ^^^ 54)) ++ msg))

/-- Render an HOTP value below 10^6 as a 6-character zero-padded decimal
string (`"{0:06}".format(v)`). -/
def passcodeString (v : Nat) : String :=
  ⟨(List.range 6).map (fun i => Char.ofNat (48 + v / 10 ^ (5 - i) % 10))⟩

/-- HOTP (RFC 4226) with 6 digits, as in `cryptography`'s
`HOTP.generate`: HMAC-SHA1 over the 8-byte big-endian counter, dynamic
truncation, modulo 10^6, zero-padded. -/
def hotp6 (key : List Nat) (counter : Nat) : String :=
  let d := hmacSha1 key (toBytesBE 8 counter)
  let offset := d.getD 19 0 &&& 15
  let p := fromBytesBE ((d.drop offset).take 4) &&& 2147483647
  passcodeString (p % 1000000)

/-- TOTP with a 30-second period (`cryptography`'s `TOTP.generate`):
the counter is `int(time / 30)`. -/
def totp6 (key : List Nat) (ts : Nat) : String := hotp6 key (ts / 30)

/-- Value of one base32 alphabet character (`A`-`Z` → 0-25, `2`-`7` →
26-31); `none` for any other character, including `=`. -/
def b32val (c : Char) : Option Nat :=
  if 'A' ≤ c ∧ c ≤ 'Z' then some (c.toNat - 65)
  else if '2' ≤ c ∧ c ≤ '7' then some (c.toNat - 24)
  else none

/-- Accumulate one ≤8-character quantum into an integer, 5 bits per
character; `none` on a non-alphabet character (Python's `KeyError` path,
re-raised as `binascii.Error('Non-base32 digit found')`). -/
def quantaAcc (q : List Char) : Option Nat :=
  q.foldl
    (fun acc c =>
      match acc, b32val c with
      | some a, some v => some (a * 32 + v)
      | _, _ => none)
    (some 0)

/-- Python `base64.b32decode` (no casefold, no map01): length must be a
multiple of 8; trailing `=` are stripped and counted; full quanta decode
to 5 bytes each; the final partial quantum is shifted and truncated.
`none` models the uncaught `binascii.Error`. -/
def b32decode (cs : List Char) : Option (List Nat) :=
  if cs.length % 8 ≠ 0 then none
  else
    let stripped := (cs.reverse.dropWhile (· = '=')).reverse
    let padchars := cs.length - stripped.length
    if ¬(padchars = 0 ∨ padchars = 1 ∨ padchars = 3 ∨ padchars = 4 ∨ padchars = 6) then
      none
    else
      match (chunksOf 8 stripped).mapM quantaAcc with
      | none => none
      | some accs =>
          let decoded := (accs.map (toBytesBE 5)).flatten
          if padchars = 0 ∨ decoded = [] then some decoded
          else
            let acc := accs.getLastD 0
            let leftover := (43 - 5 * padchars) / 8
            some (decoded.take (decoded.length - 5) ++
              (toBytesBE 5 (acc <<< (5 * padchars))).take leftover)

/-- Caller-side padding in both `generate_totp_passcode` implementations:
`while len(secret) % 8 != 0: secret += b'='`. -/
def padB32 (cs : List Char) : List Char :=
  cs ++ List.replicate ((8 - cs.length % 8) % 8) '='

/-- `mfa_actions/utils.py` `generate_totp_passcode`: pad the base32
secret, decode it, and produce the 6-digit TOTP passcode for the current
time (passed explicitly as `ts`, epoch seconds, where the source reads
`timegm(datetime.utcnow().utctimetuple())`).  `none` models the uncaught
`binascii.Error` raised on an undecodable secret. -/
def generate_totp_passcode (secret : String) (ts : Nat) : Option String :=
  (b32decode (padB32 secret.data)).map (fun key => totp6 key ts)

/-- The passcode list built by `keystone_mfa/utils.py`
`_generate_totp_passcodes`: the passcode for `ts`, then one for each of
`w` preceding periods, stepping the timestamp back thirty seconds at a
time. -/
def windowPasscodes (key : List Nat) : Nat → Nat → List String
  | ts, 0 => [totp6 key ts]
  | ts, w + 1 => totp6 key ts :: windowPasscodes key (ts - 30) w

/-- `keystone_mfa/utils.py` `_generate_totp_passcodes(secret,
included_previous_windows)`: pad and decode the secret, then return the
current passcode followed by `included_previous_windows` passcodes for
preceding periods.  The timestamp is passed explicitly as `ts` where the
source reads `timeutils.utcnow_ts(microsecond=True)`. -/
def generate_totp_passcodes (secret : String) (ts w : Nat) :
    Option (List String) :=
  (b32decode (padB32 secret.data)).map (fun key => windowPasscodes key ts w)

/-- A credential blob.  The source stores blobs as strings: an `Active`
(`totp`) credential's blob is the bare secret, while a `Draft`
(`totp-draft`) blob is JSON of the form produced by
`json.dumps({'secret': ..., 'created': ...})`.  The JSON layer is
modelled abstractly: `json secret created` stands for a string that
`json.loads` parses to a dict with a `secret` and a
`parse_datetime`-parseable `created`; `str s` stands for any other
string (on which the parse raises, caught by the source's
`except (TypeError, ValueError, KeyError)` handlers). -/
inductive Blob where
  | str (s : String)
  | json (secret : String) (created : Int)
deriving Repr, DecidableEq

/-- The string content of a blob, as handed to code that uses the blob
directly (`credentials[0].blob` for `totp` credentials).  The rendering
of a `json` blob is a fixed injective stand-in for `json.dumps`. -/
def blobString : Blob → String
  | .str s => s
  | .json s c => "secret " ++ s ++ " created " ++ toString c

/-- One stored credential: owner, type tag (`totp` / `totp-draft`), blob. -/
structure Credential where
  userId : String
  credType : String
  blob : Blob
deriving Repr, DecidableEq

/-- The abstract credential store: the list of stored credentials, in
insertion order. -/
abbrev Store := List Credential

/-- `IdentityManager.list_credentials(user_id, cred_type)`: all
credentials of one user with one type tag, in store order. -/
def list_credentials (st : Store) (uid ct : String) : List Credential :=
  st.filter (fun c => c.userId == uid && c.credType == ct)

/-- `IdentityManager.add_credential(user_id, cred_type, blob)`. -/
def add_credential (st : Store) (uid ct : String) (b : Blob) : Store :=
  st ++ [⟨uid, ct, b⟩]

/-- `IdentityManager.delete_credential(cred)`: remove one credential. -/
def delete_credential (st : Store) (c : Credential) : Store := st.erase c

/-- `IdentityManager.clear_credential_type(user_id, cred_type)`: remove
every credential of one user with one type tag. -/
def clear_credential_type (st : Store) (uid ct : String) : Store :=
  st.filter (fun c => !(c.userId == uid && c.credType == ct))

/-- `EditMFAAction._validate_totp_enabled`: if the user has `totp`
credentials the action is valid only for `delete`, otherwise only for
enable. -/
def validate_totp_enabled (st : Store) (uid : String) (delete : Bool) : Bool :=
  if (list_credentials st uid "totp").isEmpty then !delete else delete

/-- `EditMFAAction._validate`: the target user must exist and
`_validate_totp_enabled` must hold. -/
def validateAction (st : Store) (uid : String) (userExists delete : Bool) :
    Bool :=
  userExists && validate_totp_enabled st uid delete

/-- One iteration of the draft-scanning loop in
`EditMFAAction._pre_approve`: once a valid draft has been found every
later credential is deleted; before that, a credential whose blob parses
and whose `created` is at or after the expiry cutoff becomes the valid
draft, and any other credential is deleted. -/
def preApproveStep (expiry : Int) (acc : Store × Bool) (cred : Credential) :
    Store × Bool :=
  if acc.2 then (delete_credential acc.1 cred, true)
  else
    match cred.blob with
    | .json _ created =>
        if expiry ≤ created then (acc.1, true)
        else (delete_credential acc.1 cred, false)
    | .str _ => (delete_credential acc.1 cred, false)

/-- `EditMFAAction._pre_approve` (store effect): when the action is
valid and not a delete, scan the snapshot of the user's `totp-draft`
credentials with `preApproveStep` against the cutoff
`now - 60 * expiryMinutes`; when no valid draft was found, add a new
draft whose secret is the freshly generated random `freshSecret`
(`base64.b32encode(os.urandom(20))`) stamped `now`. -/
def preApprove (st : Store) (uid : String) (userExists delete : Bool)
    (now expiryMinutes : Int) (freshSecret : String) : Store :=
  if validateAction st uid userExists delete && !delete then
    let creds := list_credentials st uid "totp-draft"
    let r := creds.foldl (preApproveStep (now - 60 * expiryMinutes)) (st, false)
    if !r.2 then add_credential r.1 uid "totp-draft" (.json freshSecret now)
    else r.1
  else st

/-- Python truthiness of `get_credential_secret`'s result: `False` and
the empty string are falsy. -/
def isFalsyStr : Option String → Bool
  | none => true
  | some s => s == ""

/-- `EditMFAAction.validate_passcode`: a missing or empty passcode, or
an empty secret, fails immediately; otherwise the submitted passcode is
compared as a string with the generated current passcode.  A `none`
result models the `binascii.Error` that `generate_totp_passcode` raises
on an undecodable secret and that nothing in the action catches. -/
def validate_passcode (secret : String) (passcode : Option String)
    (ts : Nat) : Option Bool :=
  if isFalsyStr passcode || secret == "" then some false
  else
    match generate_totp_passcode secret ts with
    | none => none
    | some c => some (passcode == some c)

/-- `EditMFAAction.get_credential_secret`: look up the user's `totp`
(delete) or `totp-draft` (enable) credentials; fail on zero, and on more
than one (purging them first in the draft case only); on exactly one,
return the blob itself for `totp` and the parsed `secret` field for
`totp-draft`.  Returns the (possibly mutated) store alongside. -/
def get_credential_secret (st : Store) (uid : String) (delete : Bool) :
    Option String × Store :=
  let ct := if delete then "totp" else "totp-draft"
  match list_credentials st uid ct with
  | [] => (none, st)
  | [c] =>
      if delete then (some (blobString c.blob), st)
      else
        match c.blob with
        | .json s _ => (some s, st)
        | .str _ => (none, st)
  | _ => (none, if delete then st else clear_credential_type st uid "totp-draft")

/-- `EditMFAAction._submit` (store effect and outcome).  The result is
`none` when an exception escapes (undecodable secret inside
`validate_passcode`); otherwise `some (store, action.valid, errors)`
where `errors` is the `{'errors': ...}` message the method returns, if
any.  `ts` is the TOTP clock reading at submission time. -/
def submit (st : Store) (uid : String) (userExists delete : Bool)
    (passcode : Option String) (ts : Nat) :
    Option (Store × Bool × Option String) :=
  if !validateAction st uid userExists delete then some (st, false, none)
  else if delete then
    let r := get_credential_secret st uid true
    if isFalsyStr r.1 then some (r.2, true, none)
    else
      match validate_passcode (r.1.getD "") passcode ts with
      | none => none
      | some true => some (clear_credential_type r.2 uid "totp", true, none)
      | some false => some (r.2, false, some "Invalid TOTP passcode")
  else
    let r := get_credential_secret st uid false
    if isFalsyStr r.1 then some (r.2, false, some "TOTP Secret Removed")
    else
      match validate_passcode (r.1.getD "") passcode ts with
      | none => none
      | some true =>
          some (add_credential (clear_credential_type r.2 uid "totp-draft")
            uid "totp" (.str (r.1.getD "")), true, none)
      | some false => some (r.2, false, some "Invalid TOTP passcode")

/-- `HasActiveMFA` (the existence check `_validate_totp_enabled` and the
dashboard perform): does the user have any `totp` credential. -/
def hasActiveMFA (st : Store) (uid : String) : Bool :=
  !(list_credentials st uid "totp").isEmpty

/-! ### Helper lemmas -/

theorem passcodeString_ne_empty (v : Nat) : passcodeString v ≠ "" := by
  intro h
  have h2 := congrArg String.data h
  simp [passcodeString] at h2

theorem generate_ne_empty {s : String} {ts : Nat} {c : String}
    (h : generate_totp_passcode s ts = some c) : c ≠ "" := by
  rcases Option.map_eq_some'.1 h with ⟨key, -, hk⟩
  rw [← hk]
  simpa [totp6, hotp6] using passcodeString_ne_empty _

theorem option_some_beq {α : Type} [BEq α] (a b : α) :
    (some a == some b) = (a == b) := rfl

theorem validate_passcode_eq {s c : String} {ts : Nat} (hs : s ≠ "")
    (hgen : generate_totp_passcode s ts = some c) (p : String) :
    validate_passcode s (some p) ts = some (p == c) := by
  have hsb : (s == "") = false := beq_eq_false_iff_ne.2 hs
  by_cases hp : p = ""
  · subst hp
    have hcb : ("" == c) = false := beq_eq_false_iff_ne.2 (Ne.symm (generate_ne_empty hgen))
    simp [validate_passcode, isFalsyStr, hcb]
  · have hpb : (p == "") = false := beq_eq_false_iff_ne.2 hp
    simp [validate_passcode, isFalsyStr, hpb, hsb, hgen, option_some_beq]

theorem mem_list_credentials {st : Store} {uid ct : String} {c : Credential} :
    c ∈ list_credentials st uid ct ↔ c ∈ st ∧ c.userId = uid ∧ c.credType = ct := by
  simp [list_credentials, List.mem_filter]

theorem list_credentials_filter (st : Store) (p : Credential → Bool)
    (uid ct : String) :
    list_credentials (st.filter p) uid ct = (list_credentials st uid ct).filter p := by
  simp only [list_credentials, List.filter_filter]
  congr 1
  funext c
  exact Bool.and_comm _ _

theorem list_credentials_clear_same (st : Store) (uid ct : String) :
    list_credentials (clear_credential_type st uid ct) uid ct = [] := by
  rw [clear_credential_type, list_credentials_filter]
  rw [List.filter_eq_nil_iff]
  intro c hc
  rcases mem_list_credentials.1 hc with ⟨-, h1, h2⟩
  simp [h1, h2]

theorem list_credentials_clear_other (st : Store) (uid ct uid' ct' : String)
    (h : uid ≠ uid' ∨ ct ≠ ct') :
    list_credentials (clear_credential_type st uid' ct') uid ct =
      list_credentials st uid ct := by
  rw [clear_credential_type, list_credentials_filter]
  rw [List.filter_eq_self]
  intro c hc
  rcases mem_list_credentials.1 hc with ⟨-, h1, h2⟩
  rcases h with h | h
  · simp [h1, beq_eq_false_iff_ne.2 h]
  · simp [h2, beq_eq_false_iff_ne.2 h]

theorem list_credentials_append (st : Store) (x : Credential) (uid ct : String) :
    list_credentials (st ++ [x]) uid ct =
      list_credentials st uid ct ++
        if x.userId == uid && x.credType == ct then [x] else [] := by
  simp [list_credentials, List.filter_append, List.filter]
  split <;> simp_all

/-! ### C1 -/

/-- C1 counterexample: with secret `JBSWY3DPEHPK3PXP`, the passcode `282760`
generated at time 0 is in the codec's accepted window at time 30 (window of
one previous period), yet `validate_passcode` — used by ConfirmEnable and
ConfirmDisable — rejects it at time 30, because it only compares against the
current-period passcode. -/
theorem C1_counterexample :
    generate_totp_passcode "JBSWY3DPEHPK3PXP" 0 = some "282760" ∧
    generate_totp_passcodes "JBSWY3DPEHPK3PXP" 30 1 = some ["996554", "282760"] ∧
    "282760" ∈ ["996554", "282760"] ∧
    validate_passcode "JBSWY3DPEHPK3PXP" (some "282760") 30 = some false := by
  refine ⟨by decide, by decide, by decide, by decide⟩

/-- C1 (amended): passcode verification in ConfirmEnable/ConfirmDisable accepts
a submitted passcode iff it is string-equal to the passcode of the current
period only — no previous windows are consulted.  In particular the passcode
generated at `t` is accepted at `t`, and rejected at `t + 60` (two periods
later) whenever the two codes differ. -/
theorem C1_theorem (s c : String) (t : Nat) (hs : s ≠ "")
    (hgen : generate_totp_passcode s t = some c) :
    (∀ p : String, validate_passcode s (some p) t = some (p == c)) ∧
    validate_passcode s (some c) t = some true ∧
    (∀ d, generate_totp_passcode s (t + 60) = some d → d ≠ c →
      validate_passcode s (some c) (t + 60) = some false) := by
  refine ⟨validate_passcode_eq hs hgen, ?_, ?_⟩
  · rw [validate_passcode_eq hs hgen]
    simp
  · intro d hd hne
    rw [validate_passcode_eq hs hd]
    simp [beq_eq_false_iff_ne.2 (Ne.symm hne)]

/-- C1 witness: the amended claim at secret `JBSWY3DPEHPK3PXP`, `t = 0`. -/
theorem C1_witness :
    validate_passcode "JBSWY3DPEHPK3PXP" (some "282760") 0 = some true ∧
    validate_passcode "JBSWY3DPEHPK3PXP" (some "282760") 60 = some false := by
  have h := C1_theorem "JBSWY3DPEHPK3PXP" "282760" 0 (by decide) (by decide)
  exact ⟨h.2.1, h.2.2 "602287" (by decide) (by decide)⟩

/-! ### C3 -/

/-- C3: ConfirmEnable with a correct passcode, for a user with exactly one
Draft credential (and no Active one, as the action's validation requires),
deletes every Draft credential of the user, adds exactly one Active
credential holding the draft's secret, and reports success; afterwards
`hasActiveMFA` is true and no Draft credential of the user remains. -/
theorem C3_theorem (st : Store) (uid s c : String) (d : Credential) (cr : Int)
    (ts : Nat)
    (htotp : list_credentials st uid "totp" = [])
    (hdraft : list_credentials st uid "totp-draft" = [d])
    (hblob : d.blob = Blob.json s cr)
    (hs : s ≠ "")
    (hgen : generate_totp_passcode s ts = some c) :
    ∃ st', submit st uid true false (some c) ts = some (st', true, none) ∧
      list_credentials st' uid "totp-draft" = [] ∧
      list_credentials st' uid "totp" = [⟨uid, "totp", Blob.str s⟩] ∧
      hasActiveMFA st' uid = true := by
  have hsb : (s == "") = false := beq_eq_false_iff_ne.2 hs
  have hval : validate_passcode s (some c) ts = some true := by
    rw [validate_passcode_eq hs hgen]
    simp
  refine ⟨add_credential (clear_credential_type st uid "totp-draft") uid "totp"
      (Blob.str s), ?_, ?_, ?_, ?_⟩
  · simp [submit, validateAction, validate_totp_enabled, htotp,
      get_credential_secret, hdraft, hblob, isFalsyStr, hsb, hval]
  · rw [add_credential, list_credentials_append]
    simp [list_credentials_clear_same]
  · rw [add_credential, list_credentials_append]
    rw [list_credentials_clear_other st uid "totp" uid "totp-draft" (by simp)]
    simp [htotp]
  · rw [hasActiveMFA, add_credential, list_credentials_append]
    rw [list_credentials_clear_other st uid "totp" uid "totp-draft" (by simp)]
    simp [htotp]

/-- C3 witness: concrete enable flow with secret `JBSWY3DPEHPK3PXP` at
time 0 and its passcode `282760`. -/
theorem C3_witness :
    ∃ st', submit [⟨"u", "totp-draft", Blob.json "JBSWY3DPEHPK3PXP" 0⟩] "u"
        true false (some "282760") 0 = some (st', true, none) ∧
      list_credentials st' "u" "totp-draft" = [] ∧
      list_credentials st' "u" "totp" = [⟨"u", "totp", Blob.str "JBSWY3DPEHPK3PXP"⟩] ∧
      hasActiveMFA st' "u" = true :=
  C3_theorem [⟨"u", "totp-draft", Blob.json "JBSWY3DPEHPK3PXP" 0⟩] "u"
    "JBSWY3DPEHPK3PXP" "282760" ⟨"u", "totp-draft", Blob.json "JBSWY3DPEHPK3PXP" 0⟩
    0 0 (by decide) (by decide) (by decide) (by decide) (by decide)

/-! ### C4 -/

/-- C4: ConfirmEnable with an incorrect passcode (anything other than the
current passcode, including a missing one) reports `Invalid TOTP passcode`
and leaves the store unchanged: the draft credential is still present, no
Active credential is added, and `hasActiveMFA` remains false. -/
theorem C4_theorem (st : Store) (uid s c : String) (d : Credential) (cr : Int)
    (ts : Nat) (pc : Option String)
    (htotp : list_credentials st uid "totp" = [])
    (hdraft : list_credentials st uid "totp-draft" = [d])
    (hblob : d.blob = Blob.json s cr)
    (hs : s ≠ "")
    (hgen : generate_totp_passcode s ts = some c)
    (hwrong : pc ≠ some c) :
    submit st uid true false pc ts = some (st, false, some "Invalid TOTP passcode") ∧
    list_credentials st uid "totp-draft" = [d] ∧
    hasActiveMFA st uid = false := by
  have hsb : (s == "") = false := beq_eq_false_iff_ne.2 hs
  have hval : validate_passcode s pc ts = some false := by
    cases pc with
    | none => simp [validate_passcode, isFalsyStr]
    | some p =>
        rw [validate_passcode_eq hs hgen]
        have : p ≠ c := fun h => hwrong (by rw [h])
        simp [beq_eq_false_iff_ne.2 this]
  refine ⟨?_, hdraft, ?_⟩
  · simp [submit, validateAction, validate_totp_enabled, htotp,
      get_credential_secret, hdraft, hblob, isFalsyStr, hsb, hval]
  · simp [hasActiveMFA, htotp]

/-- C4 witness: concrete enable flow with the wrong passcode `000000`. -/
theorem C4_witness :
    submit [⟨"u", "totp-draft", Blob.json "JBSWY3DPEHPK3PXP" 0⟩] "u" true false
        (some "000000") 0 =
      some ([⟨"u", "totp-draft", Blob.json "JBSWY3DPEHPK3PXP" 0⟩], false,
        some "Invalid TOTP passcode") ∧
    hasActiveMFA [⟨"u", "totp-draft", Blob.json "JBSWY3DPEHPK3PXP" 0⟩] "u" = false := by
  have h := C4_theorem [⟨"u", "totp-draft", Blob.json "JBSWY3DPEHPK3PXP" 0⟩] "u"
    "JBSWY3DPEHPK3PXP" "282760" ⟨"u", "totp-draft", Blob.json "JBSWY3DPEHPK3PXP" 0⟩
    0 0 (some "000000") (by decide) (by decide) (by decide) (by decide)
    (by decide) (by decide)
  exact ⟨h.1, h.2.2⟩

/-! ### C8 -/

/-- C8: ConfirmDisable for a user with no Active credential performs no
store mutation and returns no error payload (the action is merely marked
invalid by `_validate`), and the submitted passcode is never consulted:
the outcome is the same for every passcode. -/
theorem C8_theorem (st : Store) (uid : String) (ts : Nat)
    (htotp : list_credentials st uid "totp" = []) :
    ∀ pc, submit st uid true true pc ts = some (st, false, none) := by
  intro pc
  simp [submit, validateAction, validate_totp_enabled, htotp]

/-- C8 witness: disable on an empty store, arbitrary passcode. -/
theorem C8_witness :
    submit [] "u" true true (some "999999") 17 = some ([], false, none) :=
  C8_theorem [] "u" 17 (by decide) (some "999999")

/-! ### C5 -/

/-- C5 counterexample: with two Active (`totp`) credentials, ConfirmDisable
terminates without success on the already-removed path, but does **not**
purge the ambiguous extras: the store is returned unchanged, still holding
both credentials, contradicting the claim that the extras are purged. -/
theorem C5_counterexample :
    submit [⟨"u", "totp", Blob.str "S1"⟩, ⟨"u", "totp", Blob.str "S2"⟩] "u"
        true true (some "123456") 0 =
      some ([⟨"u", "totp", Blob.str "S1"⟩, ⟨"u", "totp", Blob.str "S2"⟩],
        true, none) ∧
    list_credentials [⟨"u", "totp", Blob.str "S1"⟩, ⟨"u", "totp", Blob.str "S2"⟩]
        "u" "totp" =
      [⟨"u", "totp", Blob.str "S1"⟩, ⟨"u", "totp", Blob.str "S2"⟩] := by
  refine ⟨by decide, by decide⟩

/-- C5 (amended): when the store holds zero or more than one credential of
the kind a confirm operation needs — counted regardless of expiry, which is
never consulted — the operation does not succeed: ConfirmEnable purges the
user's drafts when more than one exists and reports `TOTP Secret Removed`
(also on zero drafts, without purge); ConfirmDisable on more than one Active
credential leaves the store untouched (no purge) and returns no error, and on
zero Active credentials is rejected by validation. -/
theorem C5_theorem (st : Store) (uid : String) (pc : Option String) (ts : Nat) :
    (∀ c1 c2 rest, list_credentials st uid "totp" = [] →
      list_credentials st uid "totp-draft" = c1 :: c2 :: rest →
      submit st uid true false pc ts =
        some (clear_credential_type st uid "totp-draft", false,
          some "TOTP Secret Removed")) ∧
    (list_credentials st uid "totp" = [] →
      list_credentials st uid "totp-draft" = [] →
      submit st uid true false pc ts = some (st, false, some "TOTP Secret Removed")) ∧
    (∀ c1 c2 rest, list_credentials st uid "totp" = c1 :: c2 :: rest →
      submit st uid true true pc ts = some (st, true, none)) ∧
    (list_credentials st uid "totp" = [] →
      submit st uid true true pc ts = some (st, false, none)) := by
  refine ⟨?_, ?_, ?_, ?_⟩
  · intro c1 c2 rest htotp hdraft
    simp [submit, validateAction, validate_totp_enabled, htotp,
      get_credential_secret, hdraft, isFalsyStr]
  · intro htotp hdraft
    simp [submit, validateAction, validate_totp_enabled, htotp,
      get_credential_secret, hdraft, isFalsyStr]
  · intro c1 c2 rest htotp
    simp [submit, validateAction, validate_totp_enabled, htotp,
      get_credential_secret, isFalsyStr]
  · intro htotp
    simp [submit, validateAction, validate_totp_enabled, htotp]

/-- C5 witness: two drafts for the enable flow — the operation fails with
`TOTP Secret Removed` and the drafts are purged. -/
theorem C5_witness :
    submit [⟨"u", "totp-draft", Blob.json "S1" 0⟩, ⟨"u", "totp-draft", Blob.json "S2" 0⟩]
        "u" true false (some "123456") 0 =
      some (clear_credential_type
          [⟨"u", "totp-draft", Blob.json "S1" 0⟩, ⟨"u", "totp-draft", Blob.json "S2" 0⟩]
          "u" "totp-draft", false, some "TOTP Secret Removed") :=
  ( C5_theorem [⟨"u", "totp-draft", Blob.json "S1" 0⟩,
      ⟨"u", "totp-draft", Blob.json "S2" 0⟩] "u" (some "123456") 0).1
    ⟨"u", "totp-draft", Blob.json "S1" 0⟩ ⟨"u", "totp-draft", Blob.json "S2" 0⟩ []
    (by decide) (by decide)

/-! ### C7 -/

/-- C7 counterexample: the secret `1` is not valid base32; with a non-empty
passcode, `validate_passcode` raises an uncaught exception (modelled as
`none`), and so do ConfirmDisable and ConfirmEnable with such a stored
secret — the flows crash rather than treating the secret as an invalid
credential. -/
theorem C7_counterexample :
    validate_passcode "1" (some "123456") 0 = none ∧
    submit [⟨"u", "totp", Blob.str "1"⟩] "u" true true (some "123456") 0 = none ∧
    submit [⟨"u", "totp-draft", Blob.json "1" 0⟩] "u" true false (some "123456") 0 =
      none := by
  refine ⟨by decide, by decide, by decide⟩

/-- C7 (amended): a stored secret that cannot be base32-decoded makes
passcode verification raise an uncaught exception (modelled `none`) whenever
the submitted passcode and the secret are non-empty, and the exception
propagates out of ConfirmDisable and ConfirmEnable instead of being treated
as a verification failure. -/
theorem C7_theorem (st : Store) (uid s p : String) (d : Credential) (ts : Nat)
    (hbad : b32decode (padB32 s.data) = none) (hs : s ≠ "") (hp : p ≠ "") :
    validate_passcode s (some p) ts = none ∧
    (list_credentials st uid "totp" = [d] → d.blob = Blob.str s →
      submit st uid true true (some p) ts = none) ∧
    (∀ cr, list_credentials st uid "totp" = [] →
      list_credentials st uid "totp-draft" = [d] → d.blob = Blob.json s cr →
      submit st uid true false (some p) ts = none) := by
  have hsb : (s == "") = false := beq_eq_false_iff_ne.2 hs
  have hpb : (p == "") = false := beq_eq_false_iff_ne.2 hp
  have hvp : validate_passcode s (some p) ts = none := by
    simp [validate_passcode, isFalsyStr, hpb, hsb, generate_totp_passcode, hbad]
  refine ⟨hvp, ?_, ?_⟩
  · intro htotp hblob
    simp [submit, validateAction, validate_totp_enabled, htotp,
      get_credential_secret, hblob, blobString, isFalsyStr, hsb, hvp]
  · intro cr htotp hdraft hblob
    simp [submit, validateAction, validate_totp_enabled, htotp,
      get_credential_secret, hdraft, hblob, isFalsyStr, hsb, hvp]

/-- C7 witness: the amended claim at the concrete undecodable secret `1`. -/
theorem C7_witness :
    validate_passcode "1" (some "654321") 3 = none ∧
    submit [⟨"v", "totp", Blob.str "1"⟩] "v" true true (some "654321") 3 = none := by
  have h := C7_theorem [⟨"v", "totp", Blob.str "1"⟩] "v" "1" "654321"
    ⟨"v", "totp", Blob.str "1"⟩ 3 (by decide) (by decide) (by decide)
  exact ⟨h.1, h.2.1 (by decide) (by decide)⟩

/-! ### C10 -/

/-- C10: for every secret — including undecodable and empty ones —
verification with a missing or empty passcode returns false without ever
reaching the passcode-generation codec; consequently ConfirmEnable (single
draft) and ConfirmDisable (single Active credential) with an empty or
missing passcode report `Invalid TOTP passcode`, leave the store unchanged,
and cannot crash on an undecodable secret. -/
theorem C10_theorem (st : Store) (uid s : String) (d : Credential) (cr : Int)
    (ts : Nat) (pc : Option String) (hpc : pc = none ∨ pc = some "") :
    validate_passcode s pc ts = some false ∧
    (list_credentials st uid "totp" = [] →
      list_credentials st uid "totp-draft" = [d] → d.blob = Blob.json s cr →
      s ≠ "" →
      submit st uid true false pc ts = some (st, false, some "Invalid TOTP passcode")) ∧
    (list_credentials st uid "totp" = [d] → d.blob = Blob.str s → s ≠ "" →
      submit st uid true true pc ts = some (st, false, some "Invalid TOTP passcode")) := by
  have hvp : validate_passcode s pc ts = some false := by
    rcases hpc with h | h <;> subst h <;> simp [validate_passcode, isFalsyStr]
  refine ⟨hvp, ?_, ?_⟩
  · intro htotp hdraft hblob hs
    simp [submit, validateAction, validate_totp_enabled, htotp,
      get_credential_secret, hdraft, hblob, isFalsyStr,
      beq_eq_false_iff_ne.2 hs, hvp]
  · intro htotp hblob hs
    simp [submit, validateAction, validate_totp_enabled, htotp,
      get_credential_secret, hblob, blobString, isFalsyStr,
      beq_eq_false_iff_ne.2 hs, hvp]

/-- C10 witness: empty passcode against the undecodable stored secret `1` —
ConfirmDisable reports `Invalid TOTP passcode` without crashing. -/
theorem C10_witness :
    validate_passcode "1" (some "") 5 = some false ∧
    submit [⟨"w", "totp", Blob.str "1"⟩] "w" true true (some "") 5 =
      some ([⟨"w", "totp", Blob.str "1"⟩], false, some "Invalid TOTP passcode") := by
  have h := C10_theorem [⟨"w", "totp", Blob.str "1"⟩] "w" "1"
    ⟨"w", "totp", Blob.str "1"⟩ 0 5 (some "") (Or.inr rfl)
  exact ⟨h.1, h.2.2 (by decide) (by decide) (by decide)⟩

/-! ### C6 -/

/-- C6 counterexample: ConfirmDisable with the correct passcode removes the
Active credential but does **not** delete the user's stray Draft credential:
the draft survives in the resulting store, contradicting the claim that the
user is left with no credentials of either kind. -/
theorem C6_counterexample :
    submit [⟨"u", "totp", Blob.str "JBSWY3DPEHPK3PXP"⟩,
        ⟨"u", "totp-draft", Blob.json "X" 0⟩] "u" true true (some "282760") 0 =
      some ([⟨"u", "totp-draft", Blob.json "X" 0⟩], true, none) ∧
    list_credentials [⟨"u", "totp-draft", Blob.json "X" 0⟩] "u" "totp-draft" =
      [⟨"u", "totp-draft", Blob.json "X" 0⟩] := by
  refine ⟨by decide, by decide⟩

/-- C6 (amended): ConfirmDisable with a correct passcode, for a user with
exactly one Active credential, deletes all Active credentials of that user
and reports success, and afterwards `hasActiveMFA` is false — but stray
Draft credentials are left untouched (only the `totp` type is cleared). -/
theorem C6_theorem (st : Store) (uid s c : String) (d : Credential) (ts : Nat)
    (htotp : list_credentials st uid "totp" = [d])
    (hblob : d.blob = Blob.str s)
    (hs : s ≠ "")
    (hgen : generate_totp_passcode s ts = some c) :
    submit st uid true true (some c) ts =
      some (clear_credential_type st uid "totp", true, none) ∧
    list_credentials (clear_credential_type st uid "totp") uid "totp" = [] ∧
    hasActiveMFA (clear_credential_type st uid "totp") uid = false ∧
    list_credentials (clear_credential_type st uid "totp") uid "totp-draft" =
      list_credentials st uid "totp-draft" := by
  have hsb : (s == "") = false := beq_eq_false_iff_ne.2 hs
  have hval : validate_passcode s (some c) ts = some true := by
    rw [validate_passcode_eq hs hgen]
    simp
  refine ⟨?_, list_credentials_clear_same st uid "totp", ?_, ?_⟩
  · simp [submit, validateAction, validate_totp_enabled, htotp,
      get_credential_secret, hblob, blobString, isFalsyStr, hsb, hval]
  · simp [hasActiveMFA, list_credentials_clear_same st uid "totp"]
  · exact list_credentials_clear_other st uid "totp-draft" uid "totp" (by simp)

/-- C6 witness: concrete disable flow with secret `JBSWY3DPEHPK3PXP` at
time 30 and its passcode `996554`. -/
theorem C6_witness :
    submit [⟨"u", "totp", Blob.str "JBSWY3DPEHPK3PXP"⟩] "u" true true
        (some "996554") 30 =
      some (clear_credential_type [⟨"u", "totp", Blob.str "JBSWY3DPEHPK3PXP"⟩]
          "u" "totp", true, none) ∧
    hasActiveMFA (clear_credential_type [⟨"u", "totp", Blob.str "JBSWY3DPEHPK3PXP"⟩]
        "u" "totp") "u" = false := by
  have h := C6_theorem [⟨"u", "totp", Blob.str "JBSWY3DPEHPK3PXP"⟩] "u"
    "JBSWY3DPEHPK3PXP" "996554" ⟨"u", "totp", Blob.str "JBSWY3DPEHPK3PXP"⟩ 30
    (by decide) (by decide) (by decide) (by decide)
  exact ⟨h.1, h.2.2.1⟩

/-! ### C2 -/

/-- A draft credential the `_pre_approve` scan accepts: its blob parses
and its `created` stamp is at or after the expiry cutoff `e`. -/
def draftValid (e : Int) (c : Credential) : Bool :=
  match c.blob with
  | Blob.json _ created => e ≤ created
  | Blob.str _ => false

/-- Sequentially delete each credential of `xs` from the store. -/
def deleteAll (s : Store) (xs : List Credential) : Store :=
  xs.foldl delete_credential s

theorem preApproveStep_invalid (e : Int) (s : Store) (c : Credential)
    (h : draftValid e c = false) :
    preApproveStep e (s, false) c = (delete_credential s c, false) := by
  cases hb : c.blob with
  | str a => simp [preApproveStep, hb]
  | json a cr =>
      simp only [draftValid, hb, decide_eq_false_iff_not] at h
      simp [preApproveStep, hb, h]

theorem preApproveStep_valid (e : Int) (s : Store) (c : Credential)
    (h : draftValid e c = true) :
    preApproveStep e (s, false) c = (s, true) := by
  cases hb : c.blob with
  | str a => simp [draftValid, hb] at h
  | json a cr =>
      simp only [draftValid, hb, decide_eq_true_eq] at h
      simp [preApproveStep, hb, h]

theorem preApprove_fold_true (e : Int) (l : List Credential) (s : Store) :
    l.foldl (preApproveStep e) (s, true) = (deleteAll s l, true) := by
  induction l generalizing s with
  | nil => rfl
  | cons c t ih =>
      rw [List.foldl_cons]
      have hstep : preApproveStep e (s, true) c = (delete_credential s c, true) := by
        simp [preApproveStep]
      rw [hstep]
      exact ih _

theorem preApprove_fold_invalid (e : Int) (l : List Credential) (s : Store)
    (h : ∀ c ∈ l, draftValid e c = false) :
    l.foldl (preApproveStep e) (s, false) = (deleteAll s l, false) := by
  induction l generalizing s with
  | nil => rfl
  | cons c t ih =>
      rw [List.foldl_cons, preApproveStep_invalid e s c (h c (by simp))]
      exact ih _ (fun x hx => h x (by simp [hx]))

theorem deleteAll_eq_filter (xs : List Credential) (s : Store) (h : s.Nodup) :
    deleteAll s xs = s.filter (fun c => !(xs.contains c)) := by
  induction xs generalizing s with
  | nil => simp [deleteAll]
  | cons x t ih =>
      have h1 : deleteAll s (x :: t) = deleteAll (s.erase x) t := rfl
      rw [h1, ih (s.erase x) (List.Nodup.erase x h), h.erase_eq_filter x,
        List.filter_filter]
      congr 1
      funext c
      rcases hcx : c == x <;> rcases hct : t.contains c <;>
        simp only [List.contains_cons, bne, hcx, hct, Bool.not_true, Bool.not_false,
          Bool.and_true, Bool.and_false, Bool.or_true, Bool.or_false, Bool.true_or,
          Bool.false_or, Bool.true_and, Bool.false_and]

theorem contains_iff_mem {xs : List Credential} {c : Credential} :
    xs.contains c = true ↔ c ∈ xs := List.elem_iff

/-- C2 counterexample: with two non-expired drafts (`S1`, `S2`, both created
at time 100, observed at time 100 with a 15 minute expiry), RequestEnable's
`_pre_approve` keeps the first pre-existing draft `S1` and does not store the
fresh secret `FRESH`: the claimed purge-all-and-regenerate does not happen. -/
theorem C2_counterexample :
    list_credentials (preApprove
        [⟨"u", "totp-draft", Blob.json "S1" 100⟩,
         ⟨"u", "totp-draft", Blob.json "S2" 100⟩] "u" true false 100 15 "FRESH")
      "u" "totp-draft" = [⟨"u", "totp-draft", Blob.json "S1" 100⟩] := by
  decide

/-- C2 (amended): when the user's draft list consists of a prefix of invalid
(expired or unparseable) drafts followed by a valid draft `d` and any
remainder, RequestEnable keeps exactly `d`, deletes every other draft of the
user (expired or not), and does not generate or store a fresh secret — even
when more than one non-expired draft exists. -/
theorem C2_theorem (st : Store) (uid : String) (now em : Int) (f : String)
    (pre post : List Credential) (d : Credential)
    (hnd : st.Nodup)
    (htotp : list_credentials st uid "totp" = [])
    (hsplit : list_credentials st uid "totp-draft" = pre ++ d :: post)
    (hpre : ∀ c ∈ pre, draftValid (now - 60 * em) c = false)
    (hd : draftValid (now - 60 * em) d = true) :
    preApprove st uid true false now em f = deleteAll st (pre ++ post) ∧
    list_credentials (deleteAll st (pre ++ post)) uid "totp-draft" = [d] := by
  have hfold : (pre ++ d :: post).foldl (preApproveStep (now - 60 * em)) (st, false)
      = (deleteAll st (pre ++ post), true) := by
    rw [List.foldl_append, preApprove_fold_invalid _ _ _ hpre, List.foldl_cons,
      preApproveStep_valid _ _ _ hd, preApprove_fold_true]
    simp [deleteAll, List.foldl_append]
  have hres : preApprove st uid true false now em f = deleteAll st (pre ++ post) := by
    simp [preApprove, validateAction, validate_totp_enabled, htotp, hsplit, hfold]
  have hnds : (pre ++ d :: post).Nodup := by
    rw [← hsplit]
    exact hnd.filter _
  rcases List.nodup_append.1 hnds with ⟨-, hndp, hdisj⟩
  have hdpre : d ∉ pre := fun hmem => (List.disjoint_left.1 hdisj hmem) (by simp)
  have hdpost : d ∉ post := (List.nodup_cons.1 hndp).1
  refine ⟨hres, ?_⟩
  rw [deleteAll_eq_filter _ _ hnd, list_credentials_filter, hsplit,
    List.filter_append]
  have h1 : pre.filter (fun c => !((pre ++ post).contains c)) = [] := by
    rw [List.filter_eq_nil_iff]
    intro c hc
    have hcc : (pre ++ post).contains c = true :=
      contains_iff_mem.2 (List.mem_append.2 (Or.inl hc))
    simp only [hcc, Bool.not_true, Bool.false_eq_true, not_false_eq_true]
  have h2 : (d :: post).filter (fun c => !((pre ++ post).contains c)) = [d] := by
    have hdno : ((pre ++ post).contains d) = false := by
      refine Bool.eq_false_iff.mpr (fun hcon => ?_)
      rcases List.mem_append.1 (contains_iff_mem.1 hcon) with hm | hm
      · exact absurd hm hdpre
      · exact absurd hm hdpost
    rw [List.filter_cons_of_pos (by simp only [hdno, Bool.not_false])]
    have h3 : post.filter (fun c => !((pre ++ post).contains c)) = [] := by
      rw [List.filter_eq_nil_iff]
      intro c hc
      have hcc : (pre ++ post).contains c = true :=
        contains_iff_mem.2 (List.mem_append.2 (Or.inr hc))
      simp only [hcc, Bool.not_true, Bool.false_eq_true, not_false_eq_true]
    rw [h3]
  rw [h1, h2, List.nil_append]

/-- C2 witness: the amended claim at a concrete store with two valid drafts
(`pre = []`, `d` the first draft, `post` the second). -/
theorem C2_witness :
    preApprove [⟨"u", "totp-draft", Blob.json "S1" 100⟩,
        ⟨"u", "totp-draft", Blob.json "S2" 100⟩] "u" true false 100 15 "FRESH" =
      deleteAll [⟨"u", "totp-draft", Blob.json "S1" 100⟩,
        ⟨"u", "totp-draft", Blob.json "S2" 100⟩]
        [⟨"u", "totp-draft", Blob.json "S2" 100⟩] ∧
    list_credentials (deleteAll [⟨"u", "totp-draft", Blob.json "S1" 100⟩,
        ⟨"u", "totp-draft", Blob.json "S2" 100⟩]
        [⟨"u", "totp-draft", Blob.json "S2" 100⟩]) "u" "totp-draft" =
      [⟨"u", "totp-draft", Blob.json "S1" 100⟩] :=
  C2_theorem [⟨"u", "totp-draft", Blob.json "S1" 100⟩,
      ⟨"u", "totp-draft", Blob.json "S2" 100⟩] "u" 100 15 "FRESH" []
    [⟨"u", "totp-draft", Blob.json "S2" 100⟩]
    ⟨"u", "totp-draft", Blob.json "S1" 100⟩ (by decide) (by decide) (by decide)
    (by decide) (by decide)

/-! ### C9 -/

theorem windowPasscodes_length (key : List Nat) (ts w : Nat) :
    (windowPasscodes key ts w).length = w + 1 := by
  induction w generalizing ts with
  | zero => rfl
  | succ n ih => simp [windowPasscodes, ih]

theorem windowPasscodes_getD (key : List Nat) (ts w i : Nat) (hi : i < w + 1) :
    (windowPasscodes key ts w).getD i "" = totp6 key (ts - 30 * i) := by
  induction w generalizing ts i with
  | zero =>
      have h0 : i = 0 := Nat.lt_one_iff.1 hi
      subst h0
      simp [windowPasscodes]
  | succ n ih =>
      cases i with
      | zero => simp [windowPasscodes]
      | succ j =>
          have hj : j < n + 1 := Nat.succ_lt_succ_iff.1 hi
          have hstep : (windowPasscodes key ts (n + 1)).getD (j + 1) "" =
              (windowPasscodes key (ts - 30) n).getD j "" := rfl
          rw [hstep, ih (ts - 30) j hj]
          congr 1
          omega

theorem windowPasscodes_head (key : List Nat) (ts w : Nat) :
    ∃ r, windowPasscodes key ts w = totp6 key ts :: r := by
  cases w with
  | zero => exact ⟨[], rfl⟩
  | succ n => exact ⟨windowPasscodes key (ts - 30) n, rfl⟩

/-- C9: for every valid base32 secret, time `t` and window count `w` (with
`30 * w ≤ t`, so that no timestamp underflows the epoch),
`generate_totp_passcodes` returns exactly `w + 1` passcodes, the first being
the passcode for `t` and the `i`-th the passcode for `t - 30 * i` — one
period earlier than the one before, never a future period; and a passcode
generated at `t` is an element of the window computed at `t + 30` whenever
`w ≥ 1`. -/
theorem C9_theorem (secret : String) (key : List Nat) (t w : Nat)
    (hdec : b32decode (padB32 secret.data) = some key)
    (h30 : 30 * w ≤ t) :
    ∃ ps, generate_totp_passcodes secret t w = some ps ∧
      ps.length = w + 1 ∧
      ps.getD 0 "" = totp6 key t ∧
      (∀ i, i < w + 1 → 30 * i ≤ t ∧ ps.getD i "" = totp6 key (t - 30 * i)) ∧
      (1 ≤ w → ∀ c qs, generate_totp_passcode secret t = some c →
        generate_totp_passcodes secret (t + 30) w = some qs → c ∈ qs) := by
  refine ⟨windowPasscodes key t w, ?_, windowPasscodes_length key t w, ?_, ?_, ?_⟩
  · simp [generate_totp_passcodes, hdec]
  · simpa using windowPasscodes_getD key t w 0 (Nat.succ_pos w)
  · intro i hi
    refine ⟨?_, windowPasscodes_getD key t w i hi⟩
    calc 30 * i ≤ 30 * w := Nat.mul_le_mul_left 30 (Nat.lt_succ_iff.1 hi)
      _ ≤ t := h30
  · intro hw c qs hc hqs
    have hc2 : totp6 key t = c := by
      simpa [generate_totp_passcode, hdec] using hc
    have hqs2 : windowPasscodes key (t + 30) w = qs := by
      simpa [generate_totp_passcodes, hdec] using hqs
    cases w with
    | zero => exact absurd hw (by omega)
    | succ n =>
        obtain ⟨r, hr⟩ := windowPasscodes_head key t n
        have hunf : windowPasscodes key (t + 30) (n + 1) =
            totp6 key (t + 30) :: windowPasscodes key (t + 30 - 30) n := rfl
        rw [← hqs2, hunf, Nat.add_sub_cancel, hr, ← hc2]
        simp

/-- C9 witness: the window of secret `JBSWY3DPEHPK3PXP` at `t = 60`,
`w = 1` exists and has two entries. -/
theorem C9_witness :
    ∃ ps, generate_totp_passcodes "JBSWY3DPEHPK3PXP" 60 1 = some ps ∧
      ps.length = 2 := by
  obtain ⟨ps, h1, h2, -⟩ := C9_theorem "JBSWY3DPEHPK3PXP"
    [72, 101, 108, 108, 111, 33, 222, 173, 190, 239] 60 1 (by decide) (by decide)
  exact ⟨ps, h1, h2⟩
